import Mathlib

/-!
Shallow embedding of `molbox_tester` (src/molbox_tester/main.py): a periodic
telnet command poller with timeout handling and automatic reconnection.

The Poller's mutable state is the pair of optional reader/writer handles
(`self.reader`, `self.writer`).  Interaction with the network is modelled by
outcome events supplied by the environment: each fallible I/O primitive
(opening a connection, draining a write, reading a line, closing) has an
outcome type covering the exception cases the Python code catches.  The
`run` loop is modelled as a step function over the state that also records
the trace of externally visible actions (connect attempts, disconnect calls,
command sends, interval sleeps); an infinite execution is the iteration of
this step along a stream of environment events.
-/

namespace Molbox

/-- Poller state: `self.reader` and `self.writer`, each `None` or a handle
(handles are abstracted as natural numbers). Mirrors `MolboxTester.__init__`,
which sets both to `None`. -/
structure PollerState where
  reader : Option Nat
  writer : Option Nat
deriving DecidableEq, Repr

/-- The initial state set by `MolboxTester.__init__`: both handles `None`. -/
def initState : PollerState := { reader := none, writer := none }

/-- Outcome of `asyncio.wait_for(telnetlib3.open_connection(host, port), timeout)`:
either a reader/writer pair, an `asyncio.TimeoutError`, or any other exception
(connection refused etc.). -/
inductive ConnectOutcome
  | ok (r w : Nat)
  | timeout
  | error
deriving DecidableEq, Repr

/-- Does a connect outcome deliver a connection? -/
def ConnectOutcome.isOk : ConnectOutcome → Bool
  | .ok _ _ => true
  | .timeout => false
  | .error => false

/-- `MolboxTester.connect`: on success assigns `self.reader, self.writer` to the
new pair and returns `True`; on `asyncio.TimeoutError` or any other exception it
returns `False` without touching the state (the tuple assignment never runs). -/
def connect (st : PollerState) (o : ConnectOutcome) : PollerState × Bool :=
  match o with
  | .ok r w => ({ reader := some r, writer := some w }, true)
  | .timeout => (st, false)
  | .error => (st, false)

/-- Outcome of `self.writer.close(); await self.writer.wait_closed()`:
normal completion or an exception. -/
inductive CloseOutcome
  | ok
  | error
deriving DecidableEq, Repr

/-- `MolboxTester.disconnect`: if `self.writer` is truthy it closes the
transport (any exception is logged and swallowed) and the `finally` block sets
`self.reader = None` and `self.writer = None` regardless of the close outcome;
with no writer the body is skipped entirely.  The returned `Bool` records
whether `close()` was invoked. -/
def disconnect (st : PollerState) (o : CloseOutcome) : PollerState × Bool :=
  match st.writer with
  | some _ =>
      match o with
      | .ok => ({ reader := none, writer := none }, true)
      | .error => ({ reader := none, writer := none }, true)
  | none => (st, false)

/-- Outcome of `self.writer.write(command_str); await self.writer.drain()`:
normal completion, or an exception during the send. -/
inductive SendOutcome
  | ok
  | error
deriving DecidableEq, Repr

/-- Outcome of `asyncio.wait_for(self.reader.readline(), timeout)`: a line,
an `asyncio.TimeoutError`, an `asyncio.IncompleteReadError` (remote close),
or any other exception. -/
inductive RecvOutcome
  | line (s : String)
  | timeout
  | closed
  | error
deriving DecidableEq, Repr

/-- Result of one `send_command` call: the strings written to the transport
during the call, and the returned Bool. -/
structure SendResult where
  written : List String
  success : Bool
deriving DecidableEq, Repr

/-- `MolboxTester.send_command`: writes `self.command + "\r\n"`, drains, then
reads one line with timeout.  Returns `True` when a line is read; `False` on
`asyncio.TimeoutError`, `asyncio.IncompleteReadError`, or any other exception.
With `self.writer` equal to `None` the attribute access raises and is caught by
the generic `except`, returning `False` with nothing written.  The poller state
is never modified. -/
def send_command (st : PollerState) (cmd : String) (so : SendOutcome)
    (ro : RecvOutcome) : SendResult × PollerState :=
  match st.writer with
  | none => ({ written := [], success := false }, st)
  | some _ =>
      match so with
      | .error => ({ written := [cmd ++ "\r\n"], success := false }, st)
      | .ok =>
          match ro with
          | .line _ => ({ written := [cmd ++ "\r\n"], success := true }, st)
          | .timeout => ({ written := [cmd ++ "\r\n"], success := false }, st)
          | .closed => ({ written := [cmd ++ "\r\n"], success := false }, st)
          | .error => ({ written := [cmd ++ "\r\n"], success := false }, st)

/-- Whether the send/receive outcome pair makes `send_command` succeed. -/
def sendSucceeds (so : SendOutcome) (ro : RecvOutcome) : Bool :=
  match so, ro with
  | .ok, .line _ => true
  | _, _ => false

/-- Externally visible actions of one `run` loop iteration: a `connect()`
attempt, a `disconnect()` call, a `send_command()` call, and an
`asyncio.sleep(seconds)` suspension. -/
inductive Action
  | connectAttempt
  | disconnectCall
  | send
  | sleep (seconds : Rat)
deriving DecidableEq, Repr

/-- Is an action a sleep (of any duration)? -/
def Action.isSleep : Action → Bool
  | .sleep _ => true
  | _ => false

/-- Number of sleep actions in a trace. -/
def sleepCount (tr : List Action) : Nat := tr.countP Action.isSleep

/-- Environment events available to one iteration of the `run` loop: the
outcome of the initial connect (used only when there is no writer), of the
send and receive, of the close inside `disconnect`, and of the reconnect
after a failure. -/
structure StepEnv where
  c1 : ConnectOutcome
  so : SendOutcome
  ro : RecvOutcome
  close : CloseOutcome
  c2 : ConnectOutcome
deriving DecidableEq, Repr

/-- The tail of a `run` iteration once a connection is (believed) present:
`send_command`; on success fall through to the interval sleep; on failure
`disconnect`, one reconnect attempt, then either the retry sleep (reconnect
failed, `continue`) or the interval sleep — one sleep either way. -/
def afterConnected (interval : Rat) (cmd : String) (st : PollerState)
    (e : StepEnv) (pre : List Action) : PollerState × List Action :=
  let (res, st1) := send_command st cmd e.so e.ro
  if res.success then
    (st1, pre ++ [Action.send, Action.sleep interval])
  else
    let (st2, _) := disconnect st1 e.close
    let (st3, _) := connect st2 e.c2
    (st3, pre ++ [Action.send, Action.disconnectCall, Action.connectAttempt,
      Action.sleep interval])

/-- One iteration of the `while True` body of `MolboxTester.run`:
if `self.writer` is falsy, attempt `connect()`; on failure sleep `interval`
and `continue`; otherwise proceed to `send_command` handling. -/
def runStep (interval : Rat) (cmd : String) (st : PollerState)
    (e : StepEnv) : PollerState × List Action :=
  if st.writer = none then
    let (st1, ok1) := connect st e.c1
    if ok1 then
      afterConnected interval cmd st1 e [Action.connectAttempt]
    else
      (st1, [Action.connectAttempt, Action.sleep interval])
  else
    afterConnected interval cmd st e []

/-- The poller state before the n-th iteration of `run`, along a stream of
environment events, starting from the freshly initialised state. -/
def runState (interval : Rat) (cmd : String) (env : Nat → StepEnv) :
    Nat → PollerState
  | 0 => initState
  | n + 1 => (runStep interval cmd (runState interval cmd env n) (env n)).1

/-- The concatenated action trace of the first n iterations of `run`. -/
def runTrace (interval : Rat) (cmd : String) (env : Nat → StepEnv) :
    Nat → List Action
  | 0 => []
  | n + 1 => runTrace interval cmd env n ++
      (runStep interval cmd (runState interval cmd env n) (env n)).2

/-- Configuration record produced by `load_config`; `interval` (a Python
float used only as a sleep duration) is modelled as a rational. -/
structure Config where
  host : String
  port : Int
  interval : Rat
  command : String
  timeout : Int
deriving DecidableEq, Repr

/-- The defaults hardcoded in `load_config`. -/
def defaultConfig : Config :=
  { host := "localhost", port := 23, interval := 2, command := "ALLR",
    timeout := 10 }

/-- Contents of the `[molbox]` section of `~/.molbox_tester`: each key
optionally present.  Numeric values are modelled after the `int(...)` /
`float(...)` coercions `load_config` applies to the raw INI strings. -/
structure MolboxSection where
  host? : Option String
  port? : Option Int
  interval? : Option Rat
  command? : Option String
  timeout? : Option Int
deriving DecidableEq, Repr

/-- `load_config`: starts from the default dict; if the config file exists
(outer `Option`) and has a `molbox` section (inner `Option`), each present key
overrides the corresponding default via `section.get(key, default)`; otherwise
the defaults are returned unchanged. -/
def load_config (source : Option (Option MolboxSection)) : Config :=
  let config := defaultConfig
  match source with
  | some (some s) =>
      { host := s.host?.getD config.host
        port := s.port?.getD config.port
        interval := s.interval?.getD config.interval
        command := s.command?.getD config.command
        timeout := s.timeout?.getD config.timeout }
  | some none => config
  | none => config

/-- The reader/writer coupling invariant: the reader handle is absent exactly
when the writer handle is. -/
def handlesCoupled (st : PollerState) : Prop := st.reader = none ↔ st.writer = none

instance (st : PollerState) : Decidable (handlesCoupled st) := by
  unfold handlesCoupled; infer_instance

/-- C8: with no configuration source present, `load_config` returns exactly
the default configuration `{host := "localhost", port := 23, interval := 2.0,
command := "ALLR", timeout := 10}`. -/
theorem load_config_defaults :
    load_config none =
      { host := "localhost", port := 23, interval := 2, command := "ALLR",
        timeout := 10 } := rfl

/-- C9: a configuration source that sets only the `port` field yields the
overridden port and leaves `host`, `interval`, `command`, `timeout` at their
defaults. -/
theorem load_config_port_override (p : Int) :
    load_config (some (some
      { host? := none, port? := some p, interval? := none, command? := none,
        timeout? := none })) =
      { host := "localhost", port := p, interval := 2, command := "ALLR",
        timeout := 10 } := rfl

/-- C1: with an open Transport, `send_command` writes `command + "\r\n"`,
returns `True` exactly when a line is read, returns `False` on receive
timeout, remote close, or any other I/O error during send or receive, and
leaves the poller state unchanged. -/
theorem sendCommand_spec (st : PollerState) (cmd : String) (so : SendOutcome)
    (ro : RecvOutcome) (h : st.writer ≠ none) :
    (send_command st cmd so ro).1.written = [cmd ++ "\r\n"] ∧
    ((send_command st cmd so ro).1.success = true ↔
      (so = SendOutcome.ok ∧ ∃ s, ro = RecvOutcome.line s)) ∧
    (send_command st cmd so ro).2 = st := by
  obtain ⟨w, hw⟩ := Option.ne_none_iff_exists'.mp h
  cases so <;> cases ro <;> simp [send_command, hw]

/-- Witness for C1: a connected state, a successful send, and a received
line give success. -/
theorem sendCommand_spec_witness :
    (send_command ⟨some 0, some 5⟩ "ALLR" SendOutcome.ok
        (RecvOutcome.line "ok")).1.written = ["ALLR" ++ "\r\n"] ∧
    ((send_command ⟨some 0, some 5⟩ "ALLR" SendOutcome.ok
        (RecvOutcome.line "ok")).1.success = true ↔
      (SendOutcome.ok = SendOutcome.ok ∧
        ∃ s, RecvOutcome.line "ok" = RecvOutcome.line s)) ∧
    (send_command ⟨some 0, some 5⟩ "ALLR" SendOutcome.ok
        (RecvOutcome.line "ok")).2 = ⟨some 0, some 5⟩ :=
  sendCommand_spec ⟨some 0, some 5⟩ "ALLR" SendOutcome.ok
    (RecvOutcome.line "ok") (by decide)

/-- C10: from a state where the reader handle is absent exactly when the
writer handle is, every operation preserves that coupling: `connect` (any
outcome), `disconnect` (any close outcome, including a close error), and
`send_command`, which does not modify the state at all. -/
theorem handles_invariant (st : PollerState) (h : handlesCoupled st)
    (co : ConnectOutcome) (clo : CloseOutcome) (cmd : String)
    (so : SendOutcome) (ro : RecvOutcome) :
    handlesCoupled (connect st co).1 ∧
    handlesCoupled (disconnect st clo).1 ∧
    (send_command st cmd so ro).2 = st := by
  refine ⟨?_, ?_, ?_⟩
  · cases co <;> simp_all [connect, handlesCoupled]
  · cases hw : st.writer <;> cases clo <;>
      simp_all [disconnect, handlesCoupled]
  · cases hw : st.writer <;> cases so <;> cases ro <;>
      simp_all [send_command]

/-- Witness for C10: the initial state satisfies the coupling and the
operations preserve it there. -/
theorem handles_invariant_witness :
    handlesCoupled (connect initState (ConnectOutcome.ok 0 1)).1 ∧
    handlesCoupled (disconnect initState CloseOutcome.error).1 ∧
    (send_command initState "ALLR" SendOutcome.ok RecvOutcome.timeout).2 =
      initState :=
  handles_invariant initState (by decide) (ConnectOutcome.ok 0 1)
    CloseOutcome.error "ALLR" SendOutcome.ok RecvOutcome.timeout

/-- C6 counterexample: from a starting state that still holds handles, a
failed `connect` (timeout) returns failure but does NOT leave the Session
absent — the writer is untouched, not `None`. -/
theorem connect_failure_cex :
    (connect ⟨some 0, some 0⟩ ConnectOutcome.timeout).2 = false ∧
    (connect ⟨some 0, some 0⟩ ConnectOutcome.timeout).1.writer ≠ none := by
  decide

/-- C6 amended: a failed `connect` (timeout or other connection error)
returns failure and leaves the state unchanged; in particular, when called
with the Session absent — as at every call site in `run` — both handles
remain `None`. -/
theorem connect_failure_state (st : PollerState) (o : ConnectOutcome)
    (h : o.isOk = false) :
    connect st o = (st, false) ∧
    (st.writer = none → (connect st o).1.writer = none) ∧
    (st.reader = none → (connect st o).1.reader = none) := by
  cases o <;> simp_all [connect, ConnectOutcome.isOk]

/-- Witness for C6: a connect timeout from the initial state. -/
theorem connect_failure_state_witness :
    connect initState ConnectOutcome.timeout = (initState, false) ∧
    (initState.writer = none →
      (connect initState ConnectOutcome.timeout).1.writer = none) ∧
    (initState.reader = none →
      (connect initState ConnectOutcome.timeout).1.reader = none) :=
  connect_failure_state initState ConnectOutcome.timeout (by decide)

/-- C7 counterexample: from the (unreachable) state with a reader but no
writer, `disconnect` does not clear the reader — the `if self.writer` guard
skips the `finally` block, so it does not leave both handles `None` from
EVERY state. -/
theorem disconnect_clears_cex :
    (disconnect ⟨some 0, none⟩ CloseOutcome.ok).1.reader ≠ none := by
  decide

/-- C7 amended: from any state where the reader handle is absent exactly
when the writer handle is, `disconnect` leaves both handles `None`; it is
idempotent from every state (a second call is a no-op returning the same
state without closing); and it calls `close()` exactly when a writer is
present. -/
theorem disconnect_spec (st : PollerState) (o o' : CloseOutcome) :
    disconnect (disconnect st o).1 o' = ((disconnect st o).1, false) ∧
    ((disconnect st o).2 = true ↔ st.writer ≠ none) ∧
    (handlesCoupled st →
      (disconnect st o).1.reader = none ∧
      (disconnect st o).1.writer = none) := by
  cases hw : st.writer <;> cases o <;> cases o' <;>
    simp_all [disconnect, handlesCoupled]

/-- Witness for C7: disconnecting twice from a connected (coupled) state. -/
theorem disconnect_spec_witness :
    (disconnect (disconnect ⟨some 1, some 2⟩ CloseOutcome.ok).1
        CloseOutcome.ok =
      ((disconnect ⟨some 1, some 2⟩ CloseOutcome.ok).1, false) ∧
    ((disconnect ⟨some 1, some 2⟩ CloseOutcome.ok).2 = true ↔
      (⟨some 1, some 2⟩ : PollerState).writer ≠ none) ∧
    ((disconnect ⟨some 1, some 2⟩ CloseOutcome.ok).1.reader = none ∧
      (disconnect ⟨some 1, some 2⟩ CloseOutcome.ok).1.writer = none)) :=
  ⟨(disconnect_spec ⟨some 1, some 2⟩ CloseOutcome.ok CloseOutcome.ok).1,
    (disconnect_spec ⟨some 1, some 2⟩ CloseOutcome.ok CloseOutcome.ok).2.1,
    (disconnect_spec ⟨some 1, some 2⟩ CloseOutcome.ok
      CloseOutcome.ok).2.2 (by decide)⟩

/-- C5 counterexample: a failed operation does not destroy the Session —
`send_command` failing with a receive timeout returns `False` but leaves the
writer handle in place; only the subsequent explicit `disconnect` in `run`
clears it. -/
theorem session_after_failed_send_cex :
    (send_command ⟨some 0, some 0⟩ "ALLR" SendOutcome.ok
      RecvOutcome.timeout).1.success = false ∧
    (send_command ⟨some 0, some 0⟩ "ALLR" SendOutcome.ok
      RecvOutcome.timeout).2.writer ≠ none := by
  decide

/-- C5 amended: the Session is created by a successful `connect` and
destroyed by `disconnect` (from any connected state it clears both handles);
failed operations leave the state unchanged — a failed `send_command` keeps
the Session intact and a failed `connect` changes nothing — and the `run`
loop destroys the Session with an explicit `disconnect` after a send failure
before reconnecting. -/
theorem session_lifecycle (st : PollerState) (r w : Nat) (o : CloseOutcome)
    (cmd : String) (so : SendOutcome) (ro : RecvOutcome)
    (co : ConnectOutcome) :
    (connect st (ConnectOutcome.ok r w)).1 =
      { reader := some r, writer := some w } ∧
    (st.writer ≠ none → (disconnect st o).1 = initState) ∧
    (sendSucceeds so ro = false → (send_command st cmd so ro).2 = st) ∧
    (co.isOk = false → (connect st co).1 = st) := by
  refine ⟨rfl, ?_, ?_, ?_⟩
  · cases hw : st.writer <;> cases o <;> simp_all [disconnect, initState]
  · intro _
    cases hw : st.writer <;> cases so <;> cases ro <;>
      simp_all [send_command]
  · cases co <;> simp_all [connect, ConnectOutcome.isOk]

/-- Witness for C5: lifecycle facts evaluated at a connected state with a
receive timeout and a connect timeout. -/
theorem session_lifecycle_witness :
    (connect ⟨some 1, some 2⟩ (ConnectOutcome.ok 3 4)).1 =
      { reader := some 3, writer := some 4 } ∧
    ((⟨some 1, some 2⟩ : PollerState).writer ≠ none →
      (disconnect ⟨some 1, some 2⟩ CloseOutcome.ok).1 = initState) ∧
    (sendSucceeds SendOutcome.ok RecvOutcome.timeout = false →
      (send_command ⟨some 1, some 2⟩ "ALLR" SendOutcome.ok
        RecvOutcome.timeout).2 = ⟨some 1, some 2⟩) ∧
    (ConnectOutcome.timeout.isOk = false →
      (connect ⟨some 1, some 2⟩ ConnectOutcome.timeout).1 =
        ⟨some 1, some 2⟩) :=
  session_lifecycle ⟨some 1, some 2⟩ 3 4 CloseOutcome.ok "ALLR"
    SendOutcome.ok RecvOutcome.timeout ConnectOutcome.timeout

/-- Helper: the trace of one `run` iteration is one of five concrete shapes,
each ending in a single interval sleep. -/
lemma runStep_trace_cases (interval : Rat) (cmd : String) (st : PollerState)
    (e : StepEnv) :
    (runStep interval cmd st e).2 =
        [Action.connectAttempt, Action.sleep interval] ∨
    (runStep interval cmd st e).2 =
        [Action.connectAttempt, Action.send, Action.sleep interval] ∨
    (runStep interval cmd st e).2 =
        [Action.connectAttempt, Action.send, Action.disconnectCall,
          Action.connectAttempt, Action.sleep interval] ∨
    (runStep interval cmd st e).2 = [Action.send, Action.sleep interval] ∨
    (runStep interval cmd st e).2 =
        [Action.send, Action.disconnectCall, Action.connectAttempt,
          Action.sleep interval] := by
  cases hw : st.writer <;> cases hc : e.c1 <;> cases hs : e.so <;>
    cases hr : e.ro <;>
    simp [runStep, afterConnected, send_command, connect, hw, hc, hs, hr]

/-- Helper: every possible iteration trace contains exactly one sleep and
ends with the interval sleep. -/
lemma runStep_trace_sleep (interval : Rat) (cmd : String) (st : PollerState)
    (e : StepEnv) :
    sleepCount (runStep interval cmd st e).2 = 1 ∧
    (runStep interval cmd st e).2.getLast? =
      some (Action.sleep interval) := by
  rcases runStep_trace_cases interval cmd st e with h | h | h | h | h <;>
    rw [h] <;> simp [sleepCount, Action.isSleep]

/-- C4: every iteration of the `run` loop, whatever its outcome, ends with
exactly one sleep of the configured interval: the trace contains exactly one
sleep action and its last action is `sleep interval`. -/
theorem runStep_one_sleep (interval : Rat) (cmd : String) (st : PollerState)
    (e : StepEnv) :
    sleepCount (runStep interval cmd st e).2 = 1 ∧
    (runStep interval cmd st e).2.getLast? =
      some (Action.sleep interval) :=
  runStep_trace_sleep interval cmd st e

/-- C3: for every configuration and every behaviour of the Transport, the
`run` loop keeps iterating: after n iterations the trace holds exactly n
sleeps, and the (n+1)-st iteration strictly extends it — the loop never
terminates on its own. -/
theorem run_nonterminating (interval : Rat) (cmd : String)
    (env : Nat → StepEnv) (n : Nat) :
    sleepCount (runTrace interval cmd env n) = n ∧
    (runTrace interval cmd env n).length <
      (runTrace interval cmd env (n + 1)).length := by
  constructor
  · induction n with
    | zero => simp [runTrace, sleepCount]
    | succ k ih =>
        have h := runStep_trace_sleep interval cmd
          (runState interval cmd env k) (env k)
        simp [runTrace, sleepCount, List.countP_append] at *
        omega
  · have h := runStep_trace_sleep interval cmd
      (runState interval cmd env n) (env n)
    have hne : (runStep interval cmd (runState interval cmd env n)
        (env n)).2 ≠ [] := by
      intro hnil
      rw [hnil] at h
      simp at h
    have : 0 < (runStep interval cmd (runState interval cmd env n)
        (env n)).2.length := List.length_pos.mpr hne
    simp [runTrace]
    omega

/-- C2: whenever an iteration of `run` reaches `send_command` (it started
connected, or its initial connect succeeded) and the send fails, the
iteration's trace is the optional initial connect, the send, then exactly one
`disconnect` call followed by exactly one reconnect attempt, and only then
the sleep. -/
theorem runStep_reconnect (interval : Rat) (cmd : String) (st : PollerState)
    (e : StepEnv) (h1 : st.writer ≠ none ∨ e.c1.isOk = true)
    (h2 : sendSucceeds e.so e.ro = false) :
    ∃ pre, (runStep interval cmd st e).2 =
        pre ++ [Action.send, Action.disconnectCall, Action.connectAttempt,
          Action.sleep interval] ∧
      (pre = [] ∨ pre = [Action.connectAttempt]) := by
  cases hw : st.writer with
  | none =>
      rcases h1 with h1 | h1
      · exact absurd hw h1
      · cases hc : e.c1 with
        | ok r w =>
            refine ⟨[Action.connectAttempt], ?_, Or.inr rfl⟩
            cases hs : e.so <;> cases hr : e.ro <;>
              simp_all [runStep, afterConnected, send_command, connect,
                sendSucceeds]
        | timeout => simp [ConnectOutcome.isOk, hc] at h1
        | error => simp [ConnectOutcome.isOk, hc] at h1
  | some w =>
      refine ⟨[], ?_, Or.inl rfl⟩
      cases hs : e.so <;> cases hr : e.ro <;>
        simp_all [runStep, afterConnected, send_command, sendSucceeds]

/-- Witness for C2: starting disconnected, the initial connect succeeds and
the receive times out; the iteration disconnects, reconnects once, then
sleeps. -/
theorem runStep_reconnect_witness :
    ∃ pre, (runStep 2 "ALLR" initState
        ⟨ConnectOutcome.ok 0 1, SendOutcome.ok, RecvOutcome.timeout,
          CloseOutcome.ok, ConnectOutcome.timeout⟩).2 =
        pre ++ [Action.send, Action.disconnectCall, Action.connectAttempt,
          Action.sleep 2] ∧
      (pre = [] ∨ pre = [Action.connectAttempt]) :=
  runStep_reconnect 2 "ALLR" initState
    ⟨ConnectOutcome.ok 0 1, SendOutcome.ok, RecvOutcome.timeout,
      CloseOutcome.ok, ConnectOutcome.timeout⟩
    (Or.inr (by decide)) (by decide)

end Molbox
